import Mathlib

/-!
Verification of the VTF viewer core (src/src/gui/viewer.cpp) against its
natural-language specification.

The C++ source is shallowly embedded: each widget class becomes a Lean
structure, each member function a Lean function on that structure.  The
external collaborators (the VTFLib codec, the file system, the user-facing
dialogs) are passed in as explicit oracle parameters, mirroring the calls the
source makes into them.  Qt widget primitives that the source relies on
(QSpinBox value clamping, QCheckBox state, signal dispatch) are embedded with
their documented semantics.
-/

set_option autoImplicit false

/-- Image formats of the external codec.  Only `RGBA8888` and `RGB888` are
named by the viewer source (decode targets); all other codec formats are
carried abstractly. -/
inductive VTFImageFormat where
  | RGBA8888
  | RGB888
  | DXT1
  | DXT5
  | other (code : Nat)
deriving DecidableEq, Repr

/-- Format metadata returned by `CVTFFile::GetImageFormatInfo`.  The viewer
only ever reads the `uiAlphaBitsPerPixel` field (viewer.cpp line 315). -/
structure ImageFormatInfo where
  alphaBitsPerPixel : Int
deriving DecidableEq, Repr

/-- The external codec's VTF handle (`VTFLib::CVTFFile`), restricted to the
accessors and mutators the viewer source uses.  Resources are the
(type, size) pairs exposed through `GetResourceCount` / `GetResourceType` /
`GetResourceData`.  Reflectivity components are carried abstractly (the viewer
only forwards them to display). -/
structure CVTFFile where
  width : Int
  height : Int
  depth : Int
  frameCount : Int
  faceCount : Int
  mipmapCount : Int
  format : VTFImageFormat
  majorVersion : Int
  minorVersion : Int
  size : Int
  reflectivity : Int × Int × Int
  startFrame : Int
  flags : Nat
  resources : List (Nat × Nat)
deriving DecidableEq, Repr

/-- Embeds `CVTFFile::SetStartFrame` (codec mutator invoked at viewer.cpp
line 475). -/
def CVTFFile.SetStartFrame (f : CVTFFile) (v : Int) : CVTFFile :=
  {f with startFrame := v}

/-- Embeds `CVTFFile::SetFlag(flag, on)` (codec mutator invoked at viewer.cpp
line 494): `flags |= flag` when on, `flags &= ~flag` when off.  On `Nat`,
`flags &&& ~~~flag` is expressed as `flags - (flags &&& flag)` (subtracting
the set bits of the mask). -/
def CVTFFile.SetFlag (f : CVTFFile) (flag : Nat) (b : Bool) : CVTFFile :=
  {f with flags := if b then f.flags ||| flag else f.flags - (f.flags &&& flag)}

/-- Events the main window publishes or shows: the `vtfFileChanged` signal
(viewer.cpp lines 67, 76) and the modal save-failure warning (line 155). -/
inductive UIEvent where
  | vtfChanged (payload : Option CVTFFile)
  | warnSaveFailed (msg : String)
deriving DecidableEq, Repr

/-- The `ViewerMainWindow` state: the owned VTF pointer `file_`, the current path
`path_`, the dirty bit `dirty_`, the window title, and the log of published
events. -/
structure ViewerState where
  file_ : Option CVTFFile
  path_ : String
  dirty_ : Bool
  title : String
  events : List UIEvent
deriving DecidableEq, Repr

/-- Modelled from the spec: `str::get_filename` (common/util.hpp is not among
these sources); §4.1 says the title carries the `<basename>` of the path, so
we take the component after the last path separator. -/
def get_filename (path : String) : String :=
  String.mk (path.data.foldl (fun acc c => if c == '/' then [] else acc ++ [c]) [])

/-- The test `QString::endsWith("*")` as used by `mark_modified` (viewer.cpp
line 136). -/
def endsWithStar (s : String) : Bool :=
  s.data.getLast? == some '*'

/-- Embeds `ViewerMainWindow::load_file(VTFLib::CVTFFile*)` (viewer.cpp lines 66-71):
emit `vtfFileChanged(file)`, install the file, clear the path, return true. -/
def viewer_load_file_ptr (st : ViewerState) (f : CVTFFile) : ViewerState × Bool :=
  ({st with events := st.events ++ [UIEvent.vtfChanged (some f)],
            file_ := some f,
            path_ := ""}, true)

/-- Embeds `ViewerMainWindow::load_file(const void*, size_t)` (viewer.cpp
lines 56-64): allocate a fresh `CVTFFile` and ask the codec to parse
(`file_->Load`); on failure delete it, set `file_` to null and return false;
on success delegate to the pointer overload.  The codec parse is the oracle
`parse`. -/
def viewer_load_file_buffer (st : ViewerState)
    (parse : List Nat → Option CVTFFile) (data : List Nat) :
    ViewerState × Bool :=
  match parse data with
  | none => ({st with file_ := none}, false)
  | some f => viewer_load_file_ptr st f

/-- Embeds `ViewerMainWindow::load_file(const char*)` (viewer.cpp lines 39-54): read
the file (oracle `readDisk`, none = unreadable); on read failure return false
immediately.  Otherwise delegate to the buffer overload, then —
unconditionally, before inspecting the parse result — set the window title to
`"VTFView - [<basename>]"` and record the path, and return the buffer-load
result. -/
def viewer_load_file_path (st : ViewerState)
    (readDisk : String → Option (List Nat))
    (parse : List Nat → Option CVTFFile) (path : String) :
    ViewerState × Bool :=
  match readDisk path with
  | none => (st, false)
  | some buf =>
    let r := viewer_load_file_buffer st parse buf
    ({r.1 with title := "VTFView - [" ++ get_filename path ++ "]",
               path_ := path}, r.2)

/-- Embeds `ViewerMainWindow::unload_file` (viewer.cpp lines 73-80): no-op when no
file is loaded; otherwise emit `vtfFileChanged(nullptr)`, delete the file,
null the pointer and clear the path.  (`dirty_` is not touched.) -/
def viewer_unload_file (st : ViewerState) : ViewerState :=
  match st.file_ with
  | none => st
  | some _ => {st with events := st.events ++ [UIEvent.vtfChanged none],
                       file_ := none,
                       path_ := ""}

/-- Embeds `ViewerMainWindow::reset_state` (viewer.cpp lines 128-130). -/
def viewer_reset_state (st : ViewerState) : ViewerState :=
  {st with dirty_ := false}

/-- Embeds `ViewerMainWindow::mark_modified` (viewer.cpp lines 132-139): set the
dirty bit; append `"*"` to the title unless it already ends with one. -/
def viewer_mark_modified (st : ViewerState) : ViewerState :=
  let st := {st with dirty_ := true}
  if endsWithStar st.title then st else {st with title := st.title ++ "*"}

/-- Shared tail of `ViewerMainWindow::save` (viewer.cpp lines 154-164):
`file_->Save(path_)` (a null `file_` is an unguarded dereference, modelled as
`none`); on codec failure show the warning carrying `vlGetLastError()` and
return; on success drop the final character of the title (the asterisk). -/
def saveCommit (st : ViewerState) (codecSave : CVTFFile → String → Bool)
    (lastError : String) : Option ViewerState := do
  let f ← st.file_
  if codecSave f st.path_ then
    pure {st with title := st.title.dropRight 1}
  else
    pure {st with events := st.events ++ [UIEvent.warnSaveFailed lastError]}

/-- Embeds `ViewerMainWindow::save` (viewer.cpp lines 141-165): return when not
dirty; otherwise clear the dirty bit up front; when the path is empty ask the
save-as dialog (oracle `chooseName`, `""` = user cancelled, which returns);
then run the codec save. -/
def viewer_save (st : ViewerState) (chooseName : String)
    (codecSave : CVTFFile → String → Bool) (lastError : String) :
    Option ViewerState :=
  if st.dirty_ = false then some st
  else
    let st1 := {st with dirty_ := false}
    if st1.path_ = "" then
      if chooseName = "" then some st1
      else saveCommit {st1 with path_ := chooseName} codecSave lastError
    else saveCommit st1 codecSave lastError

/-- Number of trailing `'*'` characters of a string (to state the
"exactly one trailing asterisk" property). -/
def trailingStars (s : String) : Nat :=
  (s.data.reverse.takeWhile (fun c => c == '*')).length

/-! ### Concrete fixtures used by witnesses and counterexamples -/

/-- A representative parsed VTF (256×256 DXT5, one frame/face, 9 mips). -/
def sampleVTF : CVTFFile :=
  { width := 256, height := 256, depth := 1,
    frameCount := 1, faceCount := 1, mipmapCount := 9,
    format := VTFImageFormat.DXT5,
    majorVersion := 7, minorVersion := 5, size := 1000,
    reflectivity := (0, 0, 0), startFrame := 1, flags := 0,
    resources := [(0x30, 40)] }

/-- A state with a loaded, dirty, path-backed document. -/
def loadedDirtyState : ViewerState :=
  { file_ := some sampleVTF, path_ := "tex.vtf", dirty_ := true,
    title := "VTFView - [tex.vtf]*", events := [] }

/-- A state with a loaded, dirty document that has no backing path
(loaded from a memory buffer). -/
def bufferDirtyState : ViewerState :=
  { file_ := some sampleVTF, path_ := "", dirty_ := true,
    title := "VTFView*", events := [] }

/-- The pristine main-window state (`setup_ui` sets the title to
`"VTFView"`, viewer.cpp line 83). -/
def initialViewerState : ViewerState :=
  { file_ := none, path_ := "", dirty_ := false,
    title := "VTFView", events := [] }

/-- A state whose title happens to end in two asterisks. -/
def doubleStarState : ViewerState :=
  { file_ := some sampleVTF, path_ := "", dirty_ := false,
    title := "VTFView**", events := [] }

/-- A parse oracle that rejects every buffer. -/
def parseReject : List Nat → Option CVTFFile := fun _ => none

/-- A read oracle under which every path is readable with fixed contents. -/
def readOk : String → Option (List Nat) := fun _ => some [1, 2, 3]

/-- A codec save primitive that always refuses to write. -/
def codecSaveFail : CVTFFile → String → Bool := fun _ _ => false

/-! ### ImageViewWidget (the ImageCanvas) -/

/-- Modelled from the spec: the codec's geometry primitive
`mipDimensions(w, h, d, mip) → (mw, mh, md)` (§6); `CVTFFile::
ComputeMipmapDimensions` belongs to the external codec library.  Each level
halves every extent, floored at 1. -/
def computeMipmapDimensions (w h d mip : Int) : Int × Int × Int :=
  (max 1 (w / 2 ^ mip.toNat), max 1 (h / 2 ^ mip.toNat), max 1 (d / 2 ^ mip.toNat))

/-- Decode target selection (viewer.cpp lines 315-316): RGBA8888 when the
source format's `uiAlphaBitsPerPixel` is positive, RGB888 otherwise. -/
def decodeTargetFormat (fmtInfo : VTFImageFormat → ImageFormatInfo)
    (src : VTFImageFormat) : VTFImageFormat :=
  if (fmtInfo src).alphaBitsPerPixel > 0 then VTFImageFormat.RGBA8888
  else VTFImageFormat.RGB888

/-- The `ImageViewWidget` state.  The raw pixel allocations (`malloc`/`free` of
`imgBuf_`, viewer.cpp lines 319-323) are tracked by identifier: `imgBuf_` is
the currently owned buffer, `nextBuf` the next fresh identifier, `freed` the
identifiers released so far.  `image_` is the `QImage`, a non-owning view
(buffer id, width, height, format); `painted` logs each `drawImage` call. -/
structure ImageViewState where
  frame_ : Int
  face_ : Int
  mip_ : Int
  currentFrame_ : Int
  currentFace_ : Int
  currentMip_ : Int
  zoom_ : Rat
  pos_ : Int × Int
  widgetSize : Int × Int
  imgBuf_ : Option Nat
  nextBuf : Nat
  image_ : Option (Nat × Int × Int × VTFImageFormat)
  freed : List Nat
  logs : List String
  painted : List (Option (Nat × Int × Int × VTFImageFormat))
deriving DecidableEq, Repr

/-- Modelled from the spec: the widget's initial state (the member defaults
live in viewer.hpp, which is not among these sources).  The decode cache key
starts at a sentinel no real selection equals, the widget at its 256×256
minimum size (viewer.cpp line 283), with nothing decoded, logged or
painted. -/
def initialImageViewState : ImageViewState :=
  { frame_ := 1, face_ := 1, mip_ := 0,
    currentFrame_ := -1, currentFace_ := -1, currentMip_ := -1,
    zoom_ := 1, pos_ := (0, 0), widgetSize := (256, 256),
    imgBuf_ := none, nextBuf := 0, image_ := none,
    freed := [], logs := [], painted := [] }

/-- Modelled from the spec: `ImageViewWidget::set_frame` — the public mutators
`setFrame/setFace/setMip` record the pending selection (§4.4; declared in
viewer.hpp, not among these sources). -/
def imageview_set_frame (st : ImageViewState) (n : Int) : ImageViewState :=
  {st with frame_ := n}

/-- Modelled from the spec: `ImageViewWidget::set_face` (see
`imageview_set_frame`). -/
def imageview_set_face (st : ImageViewState) (n : Int) : ImageViewState :=
  {st with face_ := n}

/-- Modelled from the spec: `ImageViewWidget::set_mip` (see
`imageview_set_frame`). -/
def imageview_set_mip (st : ImageViewState) (n : Int) : ImageViewState :=
  {st with mip_ := n}

/-- Embeds `ImageViewWidget::set_vtf` (viewer.cpp lines 290-304) for a non-null
file: force a refresh by setting the cache key to −1, reset zoom and pan, and
grow the widget to the image extent when it is smaller (`resize` respects the
256×256 minimum size). -/
def imageview_set_vtf (st : ImageViewState) (f : CVTFFile) : ImageViewState :=
  { st with
      currentFrame_ := -1, currentFace_ := -1, currentMip_ := -1,
      zoom_ := 1, pos_ := (0, 0),
      widgetSize :=
        if st.widgetSize.1 < f.width ∨ st.widgetSize.2 < f.height then
          (max 256 f.width, max 256 f.height)
        else st.widgetSize }

/-- The `vtfFileChanged` handler wired to the image view (viewer.cpp
lines 109-111): `set_vtf` dereferences `file->GetWidth()` with no null check,
so a null payload is an unguarded dereference (modelled as `none`). -/
def imageview_set_vtf_handler (file? : Option CVTFFile) (st : ImageViewState) :
    Option ImageViewState := do
  let f ← file?
  pure (imageview_set_vtf st f)

/-- Embeds `ImageViewWidget::paintEvent` (viewer.cpp lines 306-341).  `file_` is the
widget's pointer (null dereference modelled as `none`); `convert` is the codec
conversion primitive applied at `(frame_, face_, slice 0, mip_)` toward the
chosen target format.  When the selection differs from the cache key the
current buffer is freed and a fresh one allocated *before* the conversion is
attempted; on conversion failure the paint logs to standard error and returns
without drawing and without touching the cache key; on success the `QImage` is
rebuilt over the new buffer and the cache key updated.  Finally the image is
drawn. -/
def imageview_paintEvent (file? : Option CVTFFile)
    (convert : CVTFFile → Int → Int → Int → VTFImageFormat → Bool)
    (fmtInfo : VTFImageFormat → ImageFormatInfo)
    (st : ImageViewState) : Option ImageViewState := do
  let f ← file?
  let dims := computeMipmapDimensions f.width f.height f.depth st.mip_
  if st.frame_ ≠ st.currentFrame_ ∨ st.mip_ ≠ st.currentMip_
      ∨ st.face_ ≠ st.currentFace_ then
    let fmt := decodeTargetFormat fmtInfo f.format
    let st1 :=
      match st.imgBuf_ with
      | some b => {st with freed := st.freed ++ [b], imgBuf_ := none}
      | none => st
    let st2 := {st1 with imgBuf_ := some st1.nextBuf, nextBuf := st1.nextBuf + 1}
    if convert f st.frame_ st.face_ st.mip_ fmt then
      let st3 := {st2 with
        image_ := some (st1.nextBuf, dims.1, dims.2.1, fmt),
        currentFace_ := st.face_, currentFrame_ := st.frame_,
        currentMip_ := st.mip_}
      pure {st3 with painted := st3.painted ++ [st3.image_]}
    else
      pure {st2 with logs := st2.logs ++ ["Could not convert image for display."]}
  else
    pure {st with painted := st.painted ++ [st.image_]}

/-- A paint-ready state: buffer 5 holds a previously decoded raster, and the
selected frame differs from the cached one, so the next paint re-decodes. -/
def staleSelectionState : ImageViewState :=
  { initialImageViewState with
      frame_ := 1, face_ := 1, mip_ := 0,
      currentFrame_ := 0, currentFace_ := 1, currentMip_ := 0,
      imgBuf_ := some 5, nextBuf := 6,
      image_ := some (5, 256, 256, VTFImageFormat.RGBA8888) }

/-- A conversion primitive that always fails. -/
def convertFail : CVTFFile → Int → Int → Int → VTFImageFormat → Bool :=
  fun _ _ _ _ _ => false

/-- A format-metadata oracle reporting 8 alpha bits for every format. -/
def alphaFmtInfo : VTFImageFormat → ImageFormatInfo := fun _ => ⟨8⟩

/-! ### InfoWidget and ResourceWidget -/

/-- The values `InfoWidget::update_info` (viewer.cpp lines 206-226) writes
into its read-only fields.  The toolkit-side string formatting (the
two-decimal MiB/KiB size, the dotted major.minor version, the three-decimal
reflectivity triple) is abstracted to the underlying values it formats. -/
structure InfoFields where
  width : Int
  height : Int
  depth : Int
  frames : Int
  faces : Int
  mips : Int
  format : VTFImageFormat
  version : Int × Int
  sizeBytes : Int
  reflectivity : Int × Int × Int
deriving DecidableEq, Repr

/-- Embeds `InfoWidget::update_info` (viewer.cpp lines 206-226), the `vtfFileChanged`
subscriber: every field read dereferences `file` with no null check, so a null
payload is an unguarded dereference (modelled as `none`). -/
def info_update_info (file? : Option CVTFFile) : Option InfoFields := do
  let f ← file?
  pure { width := f.width, height := f.height, depth := f.depth,
         frames := f.frameCount, faces := f.faceCount, mips := f.mipmapCount,
         format := f.format,
         version := (f.majorVersion, f.minorVersion),
         sizeBytes := f.size, reflectivity := f.reflectivity }

/-- Embeds `ResourceWidget::set_vtf` (viewer.cpp lines 352-374), the `vtfFileChanged`
subscriber: clears and repopulates one row (name, type, size) per resource.
`GetResourceName` is the external type-to-name function (oracle
`resourceName`); the hex/byte-count string rendering is abstracted to the
rendered values.  `file->GetResourceCount()` is an unguarded dereference of a
possibly-null payload (modelled as `none`). -/
def resource_set_vtf (resourceName : Nat → String) (file? : Option CVTFFile) :
    Option (List (String × Nat × Nat)) := do
  let f ← file?
  pure (f.resources.map (fun r => (resourceName r.1, r.1, r.2)))

/-! ### The texture-flag table (viewer.cpp lines 395-432) -/

/-- One entry of the static `TEXTURE_FLAGS` table. -/
structure TextureFlag where
  flag : Nat
  name : String
deriving DecidableEq, Repr

/-- The static `TEXTURE_FLAGS` table, in source order.  The numeric
`TEXTUREFLAGS_*` constants live in the external codec header (not among these
sources); they are distinct single-bit masks, modelled here as consecutive
bits in table order. -/
def TEXTURE_FLAGS : List TextureFlag :=
  [ ⟨1 <<< 0, "Point Sample"⟩,
    ⟨1 <<< 1, "Trilinear"⟩,
    ⟨1 <<< 2, "Clamp S"⟩,
    ⟨1 <<< 3, "Clamp T"⟩,
    ⟨1 <<< 4, "Clamp U"⟩,
    ⟨1 <<< 5, "Anisotropic"⟩,
    ⟨1 <<< 6, "Hint DXT5"⟩,
    ⟨1 <<< 7, "sRGB"⟩,
    ⟨1 <<< 8, "Nocompress (Deprecated)"⟩,
    ⟨1 <<< 9, "Normal"⟩,
    ⟨1 <<< 10, "No MIP"⟩,
    ⟨1 <<< 11, "No LOD"⟩,
    ⟨1 <<< 12, "Min Mip"⟩,
    ⟨1 <<< 13, "Procedural"⟩,
    ⟨1 <<< 14, "One-bit Alpha"⟩,
    ⟨1 <<< 15, "Eight-bit Alpha"⟩,
    ⟨1 <<< 16, "Envmap"⟩,
    ⟨1 <<< 17, "Render Target"⟩,
    ⟨1 <<< 18, "Depth Render Target"⟩,
    ⟨1 <<< 19, "No Debug Override"⟩,
    ⟨1 <<< 20, "Single Copy"⟩,
    ⟨1 <<< 21, "One Over Mip Level Linear Alpha (Deprecated)"⟩,
    ⟨1 <<< 22, "Pre-multiply Colors by One Over Mip Level (Deprecated)"⟩,
    ⟨1 <<< 23, "Normal To DuDv"⟩,
    ⟨1 <<< 24, "Alpha Test Mip Generation (Deprecated)"⟩,
    ⟨1 <<< 25, "No Depth Buffer"⟩,
    ⟨1 <<< 26, "Nice Filtered (Deprecated)"⟩,
    ⟨1 <<< 27, "Vertex Texture"⟩,
    ⟨1 <<< 28, "SSBump"⟩,
    ⟨1 <<< 29, "Unfilterable OK (Deprecated)"⟩,
    ⟨1 <<< 30, "Border"⟩,
    ⟨1 <<< 31, "Specvar Red (Deprecated)"⟩,
    ⟨1 <<< 32, "Specvar Alpha (Deprecated)"⟩ ]

/-! ### ImageSettingsWidget and the wired application

`ImageSettingsWidget` holds four `QSpinBox`es and one `QCheckBox` per flag,
with change handlers attached in `setup_ui` (viewer.cpp lines 443-504).  Qt
delivers these signals synchronously (direct connection on one thread), so a
programmatic `setValue`/`setRange`/`setChecked` that changes the displayed
state immediately runs the handler.  `QSpinBox` semantics per its
documentation: `setValue` clamps to `[minimum, maximum]`; `setRange` installs
the new bounds and clamps the current value into them; `textChanged` fires
exactly when the displayed value changes; a fresh spin box has value 0 and
range [0, 99]. -/

/-- A `QSpinBox`: current value and range. -/
structure SpinBox where
  value : Int
  lo : Int
  hi : Int
deriving DecidableEq, Repr

/-- Qt's `qBound(min, v, max)` clamp. -/
def qBound (lo v hi : Int) : Int := max lo (min v hi)

/-- The `ImageSettingsWidget` state: the four spin boxes, the per-flag checkboxes
keyed by flag bit (in table order), the `settingFile_` re-entrancy guard, and
whether `file_` currently points at a document. -/
structure SettingsState where
  frame_ : SpinBox
  mip_ : SpinBox
  face_ : SpinBox
  startFrame_ : SpinBox
  flagChecks_ : List (Nat × Bool)
  settingFile_ : Bool
  hasFile : Bool
deriving DecidableEq, Repr

/-- The wired application: the shared document object all widget `file_`
pointers alias (viewer.cpp stores one `CVTFFile*` in the main window, the
image view and the settings panel), the image view, the settings panel, and
the number of `fileModified` emissions (each wired to
`ViewerMainWindow::mark_modified`, viewer.cpp line 119). -/
structure App where
  doc : CVTFFile
  view : ImageViewState
  settings : SettingsState
  modifiedEmits : Nat
deriving DecidableEq, Repr

/-- Handler of `frame_`'s `textChanged` (viewer.cpp lines 448-450):
`viewer->set_frame(frame_->value())`. -/
def onFrameChanged (a : App) : App :=
  {a with view := imageview_set_frame a.view a.settings.frame_.value}

/-- Handler of `mip_`'s `textChanged` (viewer.cpp lines 456-458). -/
def onMipChanged (a : App) : App :=
  {a with view := imageview_set_mip a.view a.settings.mip_.value}

/-- Handler of `face_`'s `textChanged` (viewer.cpp lines 464-466). -/
def onFaceChanged (a : App) : App :=
  {a with view := imageview_set_face a.view a.settings.face_.value}

/-- Handler of `startFrame_`'s `textChanged` (viewer.cpp lines 472-478):
bail out when `file_` is null; write the spin value through to the VTF; emit
`fileModified` unless the loading guard is up. -/
def onStartFrameChanged (a : App) : App :=
  if a.settings.hasFile = false then a
  else
    let a1 := {a with doc := a.doc.SetStartFrame a.settings.startFrame_.value}
    if a1.settings.settingFile_ then a1
    else {a1 with modifiedEmits := a1.modifiedEmits + 1}

/-- Handler of a flag checkbox's `stateChanged` (viewer.cpp lines 491-497):
bail out when `file_` is null; write the bit through to the VTF; emit
`fileModified` unless the loading guard is up. -/
def onFlagChanged (flag : Nat) (b : Bool) (a : App) : App :=
  if a.settings.hasFile = false then a
  else
    let a1 := {a with doc := a.doc.SetFlag flag b}
    if a1.settings.settingFile_ then a1
    else {a1 with modifiedEmits := a1.modifiedEmits + 1}

/-- Embeds `frame_->setValue(v)`: clamp into the current range; when the displayed
value changes, `textChanged` runs the handler synchronously. -/
def frameSetValue (a : App) (v : Int) : App :=
  let sb := a.settings.frame_
  let v' := qBound sb.lo v sb.hi
  let a1 := {a with settings := {a.settings with frame_ := {sb with value := v'}}}
  if v' = sb.value then a1 else onFrameChanged a1

/-- Embeds `frame_->setRange(lo, hi)`: install the bounds, clamp the value into
them; a changed value fires `textChanged`. -/
def frameSetRange (a : App) (lo hi : Int) : App :=
  let sb := a.settings.frame_
  let v' := qBound lo sb.value hi
  let a1 := {a with settings := {a.settings with frame_ := ⟨v', lo, hi⟩}}
  if v' = sb.value then a1 else onFrameChanged a1

/-- Embeds `mip_->setValue(v)` (see `frameSetValue`). -/
def mipSetValue (a : App) (v : Int) : App :=
  let sb := a.settings.mip_
  let v' := qBound sb.lo v sb.hi
  let a1 := {a with settings := {a.settings with mip_ := {sb with value := v'}}}
  if v' = sb.value then a1 else onMipChanged a1

/-- Embeds `mip_->setRange(lo, hi)` (see `frameSetRange`). -/
def mipSetRange (a : App) (lo hi : Int) : App :=
  let sb := a.settings.mip_
  let v' := qBound lo sb.value hi
  let a1 := {a with settings := {a.settings with mip_ := ⟨v', lo, hi⟩}}
  if v' = sb.value then a1 else onMipChanged a1

/-- Embeds `face_->setValue(v)` (see `frameSetValue`). -/
def faceSetValue (a : App) (v : Int) : App :=
  let sb := a.settings.face_
  let v' := qBound sb.lo v sb.hi
  let a1 := {a with settings := {a.settings with face_ := {sb with value := v'}}}
  if v' = sb.value then a1 else onFaceChanged a1

/-- Embeds `face_->setRange(lo, hi)` (see `frameSetRange`). -/
def faceSetRange (a : App) (lo hi : Int) : App :=
  let sb := a.settings.face_
  let v' := qBound lo sb.value hi
  let a1 := {a with settings := {a.settings with face_ := ⟨v', lo, hi⟩}}
  if v' = sb.value then a1 else onFaceChanged a1

/-- Embeds `startFrame_->setValue(v)` (see `frameSetValue`). -/
def startFrameSetValue (a : App) (v : Int) : App :=
  let sb := a.settings.startFrame_
  let v' := qBound sb.lo v sb.hi
  let a1 := {a with settings := {a.settings with startFrame_ := {sb with value := v'}}}
  if v' = sb.value then a1 else onStartFrameChanged a1

/-- Embeds `startFrame_->setRange(lo, hi)` (see `frameSetRange`). -/
def startFrameSetRange (a : App) (lo hi : Int) : App :=
  let sb := a.settings.startFrame_
  let v' := qBound lo sb.value hi
  let a1 := {a with settings := {a.settings with startFrame_ := ⟨v', lo, hi⟩}}
  if v' = sb.value then a1 else onStartFrameChanged a1

/-- Embeds `flagChecks_.find(flag)->second->setChecked(b)` (viewer.cpp line 525):
update the checkbox; `stateChanged` runs the handler exactly when the checked
state changes. -/
def setFlagCheck (a : App) (flag : Nat) (b : Bool) : App :=
  let old := a.settings.flagChecks_.lookup flag
  let newChecks := a.settings.flagChecks_.map
    (fun kc => if kc.1 = flag then (kc.1, b) else kc)
  let a1 := {a with settings := {a.settings with flagChecks_ := newChecks}}
  match old with
  | none => a1
  | some c => if c = b then a1 else onFlagChanged flag b a1

/-- Embeds `ImageSettingsWidget::set_vtf` (viewer.cpp lines 506-529), run with the
broadcast document already installed as `a.doc` (the received pointer aliases
it).  Raise the `settingFile_` guard; record the pointer; set the start-frame,
mip, frame and face spin boxes (in that order, each read of
`file->GetStartFrame()` etc. observing any write-through a previous
`textChanged` handler performed); then configure the four ranges; then read
the flag bitset once and set every checkbox from it; finally drop the
guard. -/
def settings_set_vtf (a : App) : App :=
  let a := {a with settings := {a.settings with settingFile_ := true}}
  let a := {a with settings := {a.settings with hasFile := true}}
  let a := startFrameSetValue a a.doc.startFrame
  let a := mipSetValue a 0
  let a := frameSetValue a a.doc.startFrame
  let a := faceSetValue a 0
  let a := mipSetRange a 0 a.doc.mipmapCount
  let a := frameSetRange a 1 a.doc.frameCount
  let a := faceSetRange a 1 a.doc.faceCount
  let a := startFrameSetRange a 1 a.doc.frameCount
  let flags := a.doc.flags
  let a := TEXTURE_FLAGS.foldl
    (fun acc tf => setFlagCheck acc tf.flag (decide (flags &&& tf.flag ≠ 0))) a
  {a with settings := {a.settings with settingFile_ := false}}

/-- The `vtfFileChanged` handler wired to the settings panel (viewer.cpp
line 118): `set_vtf` dereferences the received pointer
(`file->GetStartFrame()`, line 511) with no null check, so a null payload is
an unguarded dereference (modelled as `none`). -/
def settings_set_vtf_handler (file? : Option CVTFFile) (a : App) : Option App := do
  let f ← file?
  pure (settings_set_vtf {a with doc := f})

/-- A successful load as the presentation layer sees it: the new document is
installed and `vtfFileChanged(file)` is delivered to the subscribers in
connect order (viewer.cpp lines 92, 101, 109, 118) — InfoWidget and
ResourceWidget only read the document into their read-only views, then the
image view resets, then the settings panel re-synchronizes. -/
def broadcast_load (a : App) (f : CVTFFile) : App :=
  let a := {a with doc := f}
  let a := {a with view := imageview_set_vtf a.view f}
  settings_set_vtf a

/-- A fresh `ImageSettingsWidget`: spin boxes at their `QSpinBox` defaults
(value 0, range [0, 99]), all checkboxes unchecked, guard down, no file. -/
def initialSettingsState : SettingsState :=
  { frame_ := ⟨0, 0, 99⟩, mip_ := ⟨0, 0, 99⟩,
    face_ := ⟨0, 0, 99⟩, startFrame_ := ⟨0, 0, 99⟩,
    flagChecks_ := TEXTURE_FLAGS.map (fun tf => (tf.flag, false)),
    settingFile_ := false, hasFile := false }

/-- The freshly constructed application, before any load.  (`doc` is a
placeholder: no handler reads it while `hasFile` is false, and every load
overwrites it first.) -/
def initialApp : App :=
  { doc := sampleVTF, view := initialImageViewState,
    settings := initialSettingsState, modifiedEmits := 0 }

/-- First document of the C3 scenario: 3 frames, start frame 3. -/
def docA : CVTFFile :=
  { sampleVTF with frameCount := 3, startFrame := 3, mipmapCount := 5 }

/-- Second document of the C3 scenario: 10 frames, start frame 7.  Loading it
after `docA` leaves the frame spin box clamped at 3 by `docA`'s still-active
range. -/
def docB : CVTFFile :=
  { sampleVTF with frameCount := 10, startFrame := 7, mipmapCount := 5 }

/-- A document whose start frame fits the fresh widget ranges (the C3 witness
input). -/
def docW : CVTFFile :=
  { sampleVTF with frameCount := 3, startFrame := 2 }

/-! ### Claim theorems (DocumentController) -/

/-- A string with no trailing asterisk does not end with one. -/
theorem endsWithStar_eq_false_of_trailingStars_zero (s : String)
    (h : trailingStars s = 0) : endsWithStar s = false := by
  unfold trailingStars at h
  unfold endsWithStar
  rw [← List.head?_reverse]
  cases hrev : s.data.reverse with
  | nil => rfl
  | cons c t =>
    rw [hrev, List.takeWhile_cons] at h
    by_cases hc : (c == '*') = true
    · rw [if_pos hc] at h
      simp at h
    · rw [Bool.not_eq_true] at hc
      exact hc

/-- Appending `"*"` to a star-free string yields exactly one trailing
asterisk. -/
theorem trailingStars_append_star (s : String) (h : trailingStars s = 0) :
    trailingStars (s ++ "*") = 1 := by
  unfold trailingStars at h ⊢
  rw [List.length_eq_zero] at h
  have hdata : (s ++ "*").data = s.data ++ ['*'] := String.data_append s "*"
  rw [hdata, List.reverse_append]
  simp [List.takeWhile_cons, h]

/-- A string ending in an appended `"*"` ends with a star. -/
theorem endsWithStar_append_star (s : String) : endsWithStar (s ++ "*") = true := by
  unfold endsWithStar
  rw [String.data_append, List.getLast?_concat]
  rfl

/-- Lemma: `mark_modified` on a star-free title appends the asterisk and sets
dirty. -/
theorem mark_modified_of_no_star (st : ViewerState)
    (h : endsWithStar st.title = false) :
    viewer_mark_modified st = {st with dirty_ := true, title := st.title ++ "*"} := by
  simp [viewer_mark_modified, h]

/-- Lemma: `mark_modified` fixes any dirty state whose title already ends with a
star. -/
theorem mark_modified_fixed (st : ViewerState)
    (h1 : endsWithStar st.title = true) (h2 : st.dirty_ = true) :
    viewer_mark_modified st = st := by
  unfold viewer_mark_modified
  simp only [h1, if_pos]
  cases st
  simp_all

/-- Claim C1 (the code diverges from it): with a dirty, path-backed document
and a codec save primitive that returns false, `save()` returns with the
dirty bit cleared (the source clears `dirty_` before attempting the save and
never restores it); likewise a cancelled save-as dialog on a pathless dirty
document leaves `dirty_` false.  The claim says dirty stays set in both
cases. -/
theorem C1_save_failure_clears_dirty :
    (viewer_save loadedDirtyState "" codecSaveFail "err").map (fun s => s.dirty_)
      = some false
    ∧ (viewer_save bufferDirtyState "" codecSaveFail "err").map (fun s => s.dirty_)
      = some false
    ∧ (viewer_save loadedDirtyState "" codecSaveFail "err").map (fun s => s.events)
      = some [UIEvent.warnSaveFailed "err"] := by
  decide

/-- Claim C2 counterexample: with a document already loaded, a buffer load the
codec rejects returns false but nulls out the current VTF handle, so the prior
state is not left intact. -/
theorem C2_counterexample :
    (viewer_load_file_buffer loadedDirtyState parseReject [0]).1.file_
      ≠ loadedDirtyState.file_
    ∧ (viewer_load_file_buffer loadedDirtyState parseReject [0]).2 = false := by
  decide

/-- Claim C2, amended: a rejected buffer load returns false and leaves the
path, the dirty bit, the title and the event log unchanged, but replaces the
current VTF handle with null (the prior document is lost). -/
theorem C2_amended (st : ViewerState) (parse : List Nat → Option CVTFFile)
    (data : List Nat) (h : parse data = none) :
    viewer_load_file_buffer st parse data = ({st with file_ := none}, false) := by
  simp [viewer_load_file_buffer, h]

/-- Witness for `C2_amended` at a concrete loaded state and rejecting
parse. -/
theorem C2_amended_witness :
    viewer_load_file_buffer loadedDirtyState parseReject []
      = ({loadedDirtyState with file_ := none}, false) :=
  C2_amended loadedDirtyState parseReject [] rfl

/-- Claim C4 counterexample: unloading a loaded, dirty document leaves the
dirty bit set — `unload_file` never clears `dirty_`. -/
theorem C4_counterexample :
    (viewer_unload_file loadedDirtyState).dirty_ = true
    ∧ loadedDirtyState.file_.isSome = true := by
  decide

/-- Claim C4, amended: for every state with a loaded document, `unload_file`
publishes `vtfFileChanged(null)`, releases the VTF handle and clears the
path; the dirty bit is left unchanged. -/
theorem C4_amended (st : ViewerState) (f : CVTFFile) (h : st.file_ = some f) :
    viewer_unload_file st
      = {st with events := st.events ++ [UIEvent.vtfChanged none],
                 file_ := none, path_ := ""} := by
  simp [viewer_unload_file, h]

/-- Witness for `C4_amended` at a concrete loaded state. -/
theorem C4_amended_witness :
    viewer_unload_file loadedDirtyState
      = {loadedDirtyState with
           events := loadedDirtyState.events ++ [UIEvent.vtfChanged none],
           file_ := none, path_ := ""} :=
  C4_amended loadedDirtyState sampleVTF rfl

/-- Claim C5 (the code diverges from it): on a readable file whose bytes the
codec rejects, `load_file(const char*)` returns false yet still sets the
window title to `"VTFView - [<basename>]"` and records the path — the source
updates both before inspecting the parse result. -/
theorem C5_title_set_despite_reject :
    (viewer_load_file_path initialViewerState readOk parseReject "dir/tex.vtf").2
      = false
    ∧ (viewer_load_file_path initialViewerState readOk parseReject "dir/tex.vtf").1.title
      = "VTFView - [tex.vtf]"
    ∧ (viewer_load_file_path initialViewerState readOk parseReject "dir/tex.vtf").1.path_
      = "dir/tex.vtf"
    ∧ (viewer_load_file_path initialViewerState
         (fun _ => none) parseReject "unreadable.vtf")
      = (initialViewerState, false) := by
  decide

/-- Claim C9 counterexample: on a title that already ends in two asterisks,
`mark_modified` leaves the title unchanged, so the resulting title does not
end in exactly one trailing `'*'` — the claim's "for every title" fails. -/
theorem C9_counterexample :
    (viewer_mark_modified doubleStarState).title = "VTFView**"
    ∧ trailingStars (viewer_mark_modified doubleStarState).title = 2
    ∧ (viewer_mark_modified doubleStarState).dirty_ = true := by
  decide

/-- Claim C9, amended: for every state whose title has no trailing asterisk
(which holds for every title the program itself produces), any positive number
of consecutive `mark_modified` calls yields the original title with exactly
one `'*'` appended, and the dirty bit set. -/
theorem C9_amended (st : ViewerState) (n : Nat) (h : trailingStars st.title = 0) :
    (viewer_mark_modified^[n + 1] st).title = st.title ++ "*"
    ∧ trailingStars (viewer_mark_modified^[n + 1] st).title = 1
    ∧ (viewer_mark_modified^[n + 1] st).dirty_ = true := by
  have hs := endsWithStar_eq_false_of_trailingStars_zero st.title h
  rw [Function.iterate_succ_apply, mark_modified_of_no_star st hs]
  have hfix :
      viewer_mark_modified^[n] ({st with dirty_ := true, title := st.title ++ "*"})
        = {st with dirty_ := true, title := st.title ++ "*"} :=
    Function.iterate_fixed
      (mark_modified_fixed _ (endsWithStar_append_star st.title) rfl) n
  rw [hfix]
  exact ⟨rfl, trailingStars_append_star st.title h, rfl⟩

/-- Witness for `C9_amended`: two consecutive calls starting from the pristine
title `"VTFView"`. -/
theorem C9_amended_witness :
    (viewer_mark_modified^[1 + 1] initialViewerState).title
      = initialViewerState.title ++ "*"
    ∧ trailingStars (viewer_mark_modified^[1 + 1] initialViewerState).title = 1
    ∧ (viewer_mark_modified^[1 + 1] initialViewerState).dirty_ = true :=
  C9_amended initialViewerState 1 (by decide)

/-- Claim C6 counterexample: a paint whose conversion fails still frees the
previously decoded buffer (identifier 5) — the free happens before the
conversion attempt — even though no successful decode has replaced it; the
other parts of the claim (diagnostic logged, rendering skipped, cache key
untouched) do hold. -/
theorem C6_counterexample :
    (imageview_paintEvent (some sampleVTF) convertFail alphaFmtInfo
        staleSelectionState).map (fun s => s.freed) = some [5]
    ∧ (imageview_paintEvent (some sampleVTF) convertFail alphaFmtInfo
        staleSelectionState).map
          (fun s => (s.currentFrame_, s.currentFace_, s.currentMip_))
        = some (0, 1, 0)
    ∧ (imageview_paintEvent (some sampleVTF) convertFail alphaFmtInfo
        staleSelectionState).map (fun s => s.painted) = some []
    ∧ (imageview_paintEvent (some sampleVTF) convertFail alphaFmtInfo
        staleSelectionState).map (fun s => s.logs)
        = some ["Could not convert image for display."] := by
  decide

/-- Claim C6, amended: on a paint whose conversion primitive returns false,
the diagnostic is logged, rendering is skipped, the cache key and the QImage
are not touched — but the previously decoded pixel buffer has already been
freed (and replaced by a fresh, undecoded allocation) before the conversion
was attempted. -/
theorem C6_amended (f : CVTFFile)
    (cv : CVTFFile → Int → Int → Int → VTFImageFormat → Bool)
    (fi : VTFImageFormat → ImageFormatInfo) (st : ImageViewState)
    (hneed : st.frame_ ≠ st.currentFrame_ ∨ st.mip_ ≠ st.currentMip_
      ∨ st.face_ ≠ st.currentFace_)
    (hfail : cv f st.frame_ st.face_ st.mip_ (decodeTargetFormat fi f.format)
      = false) :
    (imageview_paintEvent (some f) cv fi st).map (fun s => s.logs)
      = some (st.logs ++ ["Could not convert image for display."])
    ∧ (imageview_paintEvent (some f) cv fi st).map (fun s => s.painted)
      = some st.painted
    ∧ (imageview_paintEvent (some f) cv fi st).map
        (fun s => (s.currentFrame_, s.currentFace_, s.currentMip_))
      = some (st.currentFrame_, st.currentFace_, st.currentMip_)
    ∧ (imageview_paintEvent (some f) cv fi st).map (fun s => s.image_)
      = some st.image_
    ∧ (imageview_paintEvent (some f) cv fi st).map (fun s => s.freed)
      = some (st.freed ++ st.imgBuf_.toList)
    ∧ (imageview_paintEvent (some f) cv fi st).map (fun s => s.imgBuf_)
      = some (some st.nextBuf) := by
  cases hb : st.imgBuf_ with
  | none => simp [imageview_paintEvent, hneed, hfail, hb]
  | some b => simp [imageview_paintEvent, hneed, hfail, hb]

/-- Witness for `C6_amended` at the concrete stale-selection state with the
failing conversion primitive. -/
theorem C6_amended_witness :
    (imageview_paintEvent (some sampleVTF) convertFail alphaFmtInfo
        staleSelectionState).map (fun s => s.logs)
      = some (staleSelectionState.logs ++ ["Could not convert image for display."])
    ∧ (imageview_paintEvent (some sampleVTF) convertFail alphaFmtInfo
        staleSelectionState).map (fun s => s.painted)
      = some staleSelectionState.painted
    ∧ (imageview_paintEvent (some sampleVTF) convertFail alphaFmtInfo
        staleSelectionState).map
        (fun s => (s.currentFrame_, s.currentFace_, s.currentMip_))
      = some (staleSelectionState.currentFrame_, staleSelectionState.currentFace_,
          staleSelectionState.currentMip_)
    ∧ (imageview_paintEvent (some sampleVTF) convertFail alphaFmtInfo
        staleSelectionState).map (fun s => s.image_)
      = some staleSelectionState.image_
    ∧ (imageview_paintEvent (some sampleVTF) convertFail alphaFmtInfo
        staleSelectionState).map (fun s => s.freed)
      = some (staleSelectionState.freed ++ staleSelectionState.imgBuf_.toList)
    ∧ (imageview_paintEvent (some sampleVTF) convertFail alphaFmtInfo
        staleSelectionState).map (fun s => s.imgBuf_)
      = some (some staleSelectionState.nextBuf) :=
  C6_amended sampleVTF convertFail alphaFmtInfo staleSelectionState
    (by decide) rfl

/-- Claim C8: for every source format and every codec format-metadata table,
the decode target chosen on paint is RGBA8888 iff the source format reports
`alphaBitsPerPixel > 0`, and RGB888 otherwise. -/
theorem C8_alpha_format_selection (fi : VTFImageFormat → ImageFormatInfo)
    (src : VTFImageFormat) :
    (decodeTargetFormat fi src = VTFImageFormat.RGBA8888
      ↔ (fi src).alphaBitsPerPixel > 0)
    ∧ (decodeTargetFormat fi src = VTFImageFormat.RGB888
      ↔ ¬ (fi src).alphaBitsPerPixel > 0) := by
  unfold decodeTargetFormat
  split <;> simp_all

/-- Effect of `frame_->setValue(v)` on everything the claims track: the frame
spin box is clamped-updated, all other settings, the document, the view's
zoom and pan, and the emission count are untouched (its handler only records
the pending frame on the image view). -/
theorem frameSetValue_spec (a : App) (v : Int) :
    (frameSetValue a v).settings.frame_
      = ⟨qBound a.settings.frame_.lo v a.settings.frame_.hi,
         a.settings.frame_.lo, a.settings.frame_.hi⟩
    ∧ (frameSetValue a v).settings.mip_ = a.settings.mip_
    ∧ (frameSetValue a v).settings.face_ = a.settings.face_
    ∧ (frameSetValue a v).settings.startFrame_ = a.settings.startFrame_
    ∧ (frameSetValue a v).settings.flagChecks_ = a.settings.flagChecks_
    ∧ (frameSetValue a v).settings.settingFile_ = a.settings.settingFile_
    ∧ (frameSetValue a v).settings.hasFile = a.settings.hasFile
    ∧ (frameSetValue a v).doc = a.doc
    ∧ (frameSetValue a v).view.zoom_ = a.view.zoom_
    ∧ (frameSetValue a v).view.pos_ = a.view.pos_
    ∧ (frameSetValue a v).modifiedEmits = a.modifiedEmits := by
  unfold frameSetValue onFrameChanged imageview_set_frame
  dsimp only
  split <;> exact ⟨rfl, rfl, rfl, rfl, rfl, rfl, rfl, rfl, rfl, rfl, rfl⟩

/-- Effect of `frame_->setRange(lo, hi)` (see `frameSetValue_spec`). -/
theorem frameSetRange_spec (a : App) (lo hi : Int) :
    (frameSetRange a lo hi).settings.frame_
      = ⟨qBound lo a.settings.frame_.value hi, lo, hi⟩
    ∧ (frameSetRange a lo hi).settings.mip_ = a.settings.mip_
    ∧ (frameSetRange a lo hi).settings.face_ = a.settings.face_
    ∧ (frameSetRange a lo hi).settings.startFrame_ = a.settings.startFrame_
    ∧ (frameSetRange a lo hi).settings.flagChecks_ = a.settings.flagChecks_
    ∧ (frameSetRange a lo hi).settings.settingFile_ = a.settings.settingFile_
    ∧ (frameSetRange a lo hi).settings.hasFile = a.settings.hasFile
    ∧ (frameSetRange a lo hi).doc = a.doc
    ∧ (frameSetRange a lo hi).view.zoom_ = a.view.zoom_
    ∧ (frameSetRange a lo hi).view.pos_ = a.view.pos_
    ∧ (frameSetRange a lo hi).modifiedEmits = a.modifiedEmits := by
  unfold frameSetRange onFrameChanged imageview_set_frame
  dsimp only
  split <;> exact ⟨rfl, rfl, rfl, rfl, rfl, rfl, rfl, rfl, rfl, rfl, rfl⟩

/-- Effect of `mip_->setValue(v)` (see `frameSetValue_spec`). -/
theorem mipSetValue_spec (a : App) (v : Int) :
    (mipSetValue a v).settings.mip_
      = ⟨qBound a.settings.mip_.lo v a.settings.mip_.hi,
         a.settings.mip_.lo, a.settings.mip_.hi⟩
    ∧ (mipSetValue a v).settings.frame_ = a.settings.frame_
    ∧ (mipSetValue a v).settings.face_ = a.settings.face_
    ∧ (mipSetValue a v).settings.startFrame_ = a.settings.startFrame_
    ∧ (mipSetValue a v).settings.flagChecks_ = a.settings.flagChecks_
    ∧ (mipSetValue a v).settings.settingFile_ = a.settings.settingFile_
    ∧ (mipSetValue a v).settings.hasFile = a.settings.hasFile
    ∧ (mipSetValue a v).doc = a.doc
    ∧ (mipSetValue a v).view.zoom_ = a.view.zoom_
    ∧ (mipSetValue a v).view.pos_ = a.view.pos_
    ∧ (mipSetValue a v).modifiedEmits = a.modifiedEmits := by
  unfold mipSetValue onMipChanged imageview_set_mip
  dsimp only
  split <;> exact ⟨rfl, rfl, rfl, rfl, rfl, rfl, rfl, rfl, rfl, rfl, rfl⟩

/-- Effect of `mip_->setRange(lo, hi)` (see `frameSetValue_spec`). -/
theorem mipSetRange_spec (a : App) (lo hi : Int) :
    (mipSetRange a lo hi).settings.mip_
      = ⟨qBound lo a.settings.mip_.value hi, lo, hi⟩
    ∧ (mipSetRange a lo hi).settings.frame_ = a.settings.frame_
    ∧ (mipSetRange a lo hi).settings.face_ = a.settings.face_
    ∧ (mipSetRange a lo hi).settings.startFrame_ = a.settings.startFrame_
    ∧ (mipSetRange a lo hi).settings.flagChecks_ = a.settings.flagChecks_
    ∧ (mipSetRange a lo hi).settings.settingFile_ = a.settings.settingFile_
    ∧ (mipSetRange a lo hi).settings.hasFile = a.settings.hasFile
    ∧ (mipSetRange a lo hi).doc = a.doc
    ∧ (mipSetRange a lo hi).view.zoom_ = a.view.zoom_
    ∧ (mipSetRange a lo hi).view.pos_ = a.view.pos_
    ∧ (mipSetRange a lo hi).modifiedEmits = a.modifiedEmits := by
  unfold mipSetRange onMipChanged imageview_set_mip
  dsimp only
  split <;> exact ⟨rfl, rfl, rfl, rfl, rfl, rfl, rfl, rfl, rfl, rfl, rfl⟩

/-- Effect of `face_->setValue(v)` (see `frameSetValue_spec`). -/
theorem faceSetValue_spec (a : App) (v : Int) :
    (faceSetValue a v).settings.face_
      = ⟨qBound a.settings.face_.lo v a.settings.face_.hi,
         a.settings.face_.lo, a.settings.face_.hi⟩
    ∧ (faceSetValue a v).settings.frame_ = a.settings.frame_
    ∧ (faceSetValue a v).settings.mip_ = a.settings.mip_
    ∧ (faceSetValue a v).settings.startFrame_ = a.settings.startFrame_
    ∧ (faceSetValue a v).settings.flagChecks_ = a.settings.flagChecks_
    ∧ (faceSetValue a v).settings.settingFile_ = a.settings.settingFile_
    ∧ (faceSetValue a v).settings.hasFile = a.settings.hasFile
    ∧ (faceSetValue a v).doc = a.doc
    ∧ (faceSetValue a v).view.zoom_ = a.view.zoom_
    ∧ (faceSetValue a v).view.pos_ = a.view.pos_
    ∧ (faceSetValue a v).modifiedEmits = a.modifiedEmits := by
  unfold faceSetValue onFaceChanged imageview_set_face
  dsimp only
  split <;> exact ⟨rfl, rfl, rfl, rfl, rfl, rfl, rfl, rfl, rfl, rfl, rfl⟩

/-- Effect of `face_->setRange(lo, hi)` (see `frameSetValue_spec`). -/
theorem faceSetRange_spec (a : App) (lo hi : Int) :
    (faceSetRange a lo hi).settings.face_
      = ⟨qBound lo a.settings.face_.value hi, lo, hi⟩
    ∧ (faceSetRange a lo hi).settings.frame_ = a.settings.frame_
    ∧ (faceSetRange a lo hi).settings.mip_ = a.settings.mip_
    ∧ (faceSetRange a lo hi).settings.startFrame_ = a.settings.startFrame_
    ∧ (faceSetRange a lo hi).settings.flagChecks_ = a.settings.flagChecks_
    ∧ (faceSetRange a lo hi).settings.settingFile_ = a.settings.settingFile_
    ∧ (faceSetRange a lo hi).settings.hasFile = a.settings.hasFile
    ∧ (faceSetRange a lo hi).doc = a.doc
    ∧ (faceSetRange a lo hi).view.zoom_ = a.view.zoom_
    ∧ (faceSetRange a lo hi).view.pos_ = a.view.pos_
    ∧ (faceSetRange a lo hi).modifiedEmits = a.modifiedEmits := by
  unfold faceSetRange onFaceChanged imageview_set_face
  dsimp only
  split <;> exact ⟨rfl, rfl, rfl, rfl, rfl, rfl, rfl, rfl, rfl, rfl, rfl⟩

/-- Effect of `startFrame_->setValue(v)`: the start-frame spin box is
clamped-updated and the rest of the panel and view are untouched; the
document is unchanged whenever the clamped value equals its current start
frame (the handler writes that same value through); no `fileModified` fires
while the loading guard is up. -/
theorem startFrameSetValue_spec (a : App) (v : Int) :
    (startFrameSetValue a v).settings.startFrame_
      = ⟨qBound a.settings.startFrame_.lo v a.settings.startFrame_.hi,
         a.settings.startFrame_.lo, a.settings.startFrame_.hi⟩
    ∧ (startFrameSetValue a v).settings.frame_ = a.settings.frame_
    ∧ (startFrameSetValue a v).settings.mip_ = a.settings.mip_
    ∧ (startFrameSetValue a v).settings.face_ = a.settings.face_
    ∧ (startFrameSetValue a v).settings.flagChecks_ = a.settings.flagChecks_
    ∧ (startFrameSetValue a v).settings.settingFile_ = a.settings.settingFile_
    ∧ (startFrameSetValue a v).settings.hasFile = a.settings.hasFile
    ∧ (startFrameSetValue a v).view = a.view
    ∧ (qBound a.settings.startFrame_.lo v a.settings.startFrame_.hi
        = a.doc.startFrame → (startFrameSetValue a v).doc = a.doc)
    ∧ (a.settings.settingFile_ = true →
        (startFrameSetValue a v).modifiedEmits = a.modifiedEmits) := by
  unfold startFrameSetValue onStartFrameChanged CVTFFile.SetStartFrame
  dsimp only
  split
  · exact ⟨rfl, rfl, rfl, rfl, rfl, rfl, rfl, rfl, fun _ => rfl, fun _ => rfl⟩
  · split
    · exact ⟨rfl, rfl, rfl, rfl, rfl, rfl, rfl, rfl, fun _ => rfl, fun _ => rfl⟩
    · split
      · refine ⟨rfl, rfl, rfl, rfl, rfl, rfl, rfl, rfl, fun h => ?_, fun _ => rfl⟩
        dsimp only
        rw [h]
      · rename_i hguard
        refine ⟨rfl, rfl, rfl, rfl, rfl, rfl, rfl, rfl, fun h => ?_, fun hg => ?_⟩
        · dsimp only
          rw [h]
        · exact absurd hg (by simpa using hguard)

/-- Effect of `startFrame_->setRange(lo, hi)` (see
`startFrameSetValue_spec`). -/
theorem startFrameSetRange_spec (a : App) (lo hi : Int) :
    (startFrameSetRange a lo hi).settings.startFrame_
      = ⟨qBound lo a.settings.startFrame_.value hi, lo, hi⟩
    ∧ (startFrameSetRange a lo hi).settings.frame_ = a.settings.frame_
    ∧ (startFrameSetRange a lo hi).settings.mip_ = a.settings.mip_
    ∧ (startFrameSetRange a lo hi).settings.face_ = a.settings.face_
    ∧ (startFrameSetRange a lo hi).settings.flagChecks_ = a.settings.flagChecks_
    ∧ (startFrameSetRange a lo hi).settings.settingFile_ = a.settings.settingFile_
    ∧ (startFrameSetRange a lo hi).settings.hasFile = a.settings.hasFile
    ∧ (startFrameSetRange a lo hi).view = a.view
    ∧ (qBound lo a.settings.startFrame_.value hi
        = a.doc.startFrame → (startFrameSetRange a lo hi).doc = a.doc)
    ∧ (a.settings.settingFile_ = true →
        (startFrameSetRange a lo hi).modifiedEmits = a.modifiedEmits) := by
  unfold startFrameSetRange onStartFrameChanged CVTFFile.SetStartFrame
  dsimp only
  split
  · exact ⟨rfl, rfl, rfl, rfl, rfl, rfl, rfl, rfl, fun _ => rfl, fun _ => rfl⟩
  · split
    · exact ⟨rfl, rfl, rfl, rfl, rfl, rfl, rfl, rfl, fun _ => rfl, fun _ => rfl⟩
    · split
      · refine ⟨rfl, rfl, rfl, rfl, rfl, rfl, rfl, rfl, fun h => ?_, fun _ => rfl⟩
        dsimp only
        rw [h]
      · rename_i hguard
        refine ⟨rfl, rfl, rfl, rfl, rfl, rfl, rfl, rfl, fun h => ?_, fun hg => ?_⟩
        · dsimp only
          rw [h]
        · exact absurd hg (by simpa using hguard)

/-- Effect of one checkbox `setChecked` during re-synchronization: spin
boxes, guard, file pointer, the view and the document's start frame are
untouched (the handler only rewrites the flag bitset), and no `fileModified`
fires while the loading guard is up. -/
theorem setFlagCheck_spec (a : App) (flag : Nat) (b : Bool) :
    (setFlagCheck a flag b).settings.frame_ = a.settings.frame_
    ∧ (setFlagCheck a flag b).settings.mip_ = a.settings.mip_
    ∧ (setFlagCheck a flag b).settings.face_ = a.settings.face_
    ∧ (setFlagCheck a flag b).settings.startFrame_ = a.settings.startFrame_
    ∧ (setFlagCheck a flag b).settings.settingFile_ = a.settings.settingFile_
    ∧ (setFlagCheck a flag b).settings.hasFile = a.settings.hasFile
    ∧ (setFlagCheck a flag b).view = a.view
    ∧ (setFlagCheck a flag b).doc.startFrame = a.doc.startFrame
    ∧ (a.settings.settingFile_ = true →
        (setFlagCheck a flag b).modifiedEmits = a.modifiedEmits) := by
  unfold setFlagCheck onFlagChanged CVTFFile.SetFlag
  dsimp only
  split
  · exact ⟨rfl, rfl, rfl, rfl, rfl, rfl, rfl, rfl, fun _ => rfl⟩
  · split
    · exact ⟨rfl, rfl, rfl, rfl, rfl, rfl, rfl, rfl, fun _ => rfl⟩
    · split
      · exact ⟨rfl, rfl, rfl, rfl, rfl, rfl, rfl, rfl, fun _ => rfl⟩
      · split
        · exact ⟨rfl, rfl, rfl, rfl, rfl, rfl, rfl, rfl, fun _ => rfl⟩
        · rename_i hguard
          exact ⟨rfl, rfl, rfl, rfl, rfl, rfl, rfl, rfl,
            fun hg => absurd hg (by simpa using hguard)⟩

/-- The whole flag-checkbox loop of `set_vtf` preserves everything tracked by
`setFlagCheck_spec`, for any per-entry checked value. -/
theorem flagsFold_spec (checked : TextureFlag → Bool) :
    ∀ (l : List TextureFlag) (a : App),
    (l.foldl (fun acc tf => setFlagCheck acc tf.flag (checked tf)) a).settings.frame_
        = a.settings.frame_
    ∧ (l.foldl (fun acc tf => setFlagCheck acc tf.flag (checked tf)) a).settings.mip_
        = a.settings.mip_
    ∧ (l.foldl (fun acc tf => setFlagCheck acc tf.flag (checked tf)) a).settings.face_
        = a.settings.face_
    ∧ (l.foldl (fun acc tf => setFlagCheck acc tf.flag (checked tf)) a).settings.startFrame_
        = a.settings.startFrame_
    ∧ (l.foldl (fun acc tf => setFlagCheck acc tf.flag (checked tf)) a).settings.settingFile_
        = a.settings.settingFile_
    ∧ (l.foldl (fun acc tf => setFlagCheck acc tf.flag (checked tf)) a).settings.hasFile
        = a.settings.hasFile
    ∧ (l.foldl (fun acc tf => setFlagCheck acc tf.flag (checked tf)) a).view = a.view
    ∧ (l.foldl (fun acc tf => setFlagCheck acc tf.flag (checked tf)) a).doc.startFrame
        = a.doc.startFrame
    ∧ (a.settings.settingFile_ = true →
        (l.foldl (fun acc tf => setFlagCheck acc tf.flag (checked tf)) a).modifiedEmits
          = a.modifiedEmits)
  | [], a =>
    ⟨rfl, rfl, rfl, rfl, rfl, rfl, rfl, rfl, fun _ => rfl⟩
  | tf :: l, a => by
    obtain ⟨h1, h2, h3, h4, h5, h6, h7, h8, h9⟩ :=
      setFlagCheck_spec a tf.flag (checked tf)
    obtain ⟨g1, g2, g3, g4, g5, g6, g7, g8, g9⟩ :=
      flagsFold_spec checked l (setFlagCheck a tf.flag (checked tf))
    rw [List.foldl_cons]
    refine ⟨g1.trans h1, g2.trans h2, g3.trans h3, g4.trans h4, g5.trans h5,
      g6.trans h6, g7.trans h7, g8.trans h8, fun hg => ?_⟩
    rw [g9 (h5.trans hg), h9 hg]

/-- Claim C7: during the whole of `ImageSettingsWidget::set_vtf` — the
SettingsPanel re-synchronization that follows `documentChanged`, performed
under the `settingFile_` loading guard — no `fileModified` signal is emitted,
for every prior application state and every document being synchronized. -/
theorem C7_loading_guard_no_modified (a : App) :
    (settings_set_vtf a).modifiedEmits = a.modifiedEmits := by
  unfold settings_set_vtf
  dsimp only
  set aG : App :=
    { doc := a.doc, view := a.view,
      settings :=
        { frame_ := a.settings.frame_, mip_ := a.settings.mip_,
          face_ := a.settings.face_, startFrame_ := a.settings.startFrame_,
          flagChecks_ := a.settings.flagChecks_, settingFile_ := true,
          hasFile := true },
      modifiedEmits := a.modifiedEmits } with haG
  set s1 := startFrameSetValue aG a.doc.startFrame with hs1
  set s2 := mipSetValue s1 0 with hs2
  set s3 := frameSetValue s2 s2.doc.startFrame with hs3
  set s4 := faceSetValue s3 0 with hs4
  set s5 := mipSetRange s4 0 s4.doc.mipmapCount with hs5
  set s6 := frameSetRange s5 1 s5.doc.frameCount with hs6
  set s7 := faceSetRange s6 1 s6.doc.faceCount with hs7
  set s8 := startFrameSetRange s7 1 s7.doc.frameCount with hs8
  have g1 : s1.settings.settingFile_ = true ∧ s1.modifiedEmits = a.modifiedEmits := by
    rw [hs1]
    obtain ⟨-, -, -, -, -, h6, -, -, -, h10⟩ := startFrameSetValue_spec aG a.doc.startFrame
    exact ⟨h6, h10 rfl⟩
  have g2 : s2.settings.settingFile_ = true ∧ s2.modifiedEmits = a.modifiedEmits := by
    rw [hs2]
    obtain ⟨-, -, -, -, -, h6, -, -, -, -, h11⟩ := mipSetValue_spec s1 0
    exact ⟨h6.trans g1.1, h11.trans g1.2⟩
  have g3 : s3.settings.settingFile_ = true ∧ s3.modifiedEmits = a.modifiedEmits := by
    rw [hs3]
    obtain ⟨-, -, -, -, -, h6, -, -, -, -, h11⟩ := frameSetValue_spec s2 s2.doc.startFrame
    exact ⟨h6.trans g2.1, h11.trans g2.2⟩
  have g4 : s4.settings.settingFile_ = true ∧ s4.modifiedEmits = a.modifiedEmits := by
    rw [hs4]
    obtain ⟨-, -, -, -, -, h6, -, -, -, -, h11⟩ := faceSetValue_spec s3 0
    exact ⟨h6.trans g3.1, h11.trans g3.2⟩
  have g5 : s5.settings.settingFile_ = true ∧ s5.modifiedEmits = a.modifiedEmits := by
    rw [hs5]
    obtain ⟨-, -, -, -, -, h6, -, -, -, -, h11⟩ := mipSetRange_spec s4 0 s4.doc.mipmapCount
    exact ⟨h6.trans g4.1, h11.trans g4.2⟩
  have g6 : s6.settings.settingFile_ = true ∧ s6.modifiedEmits = a.modifiedEmits := by
    rw [hs6]
    obtain ⟨-, -, -, -, -, h6, -, -, -, -, h11⟩ := frameSetRange_spec s5 1 s5.doc.frameCount
    exact ⟨h6.trans g5.1, h11.trans g5.2⟩
  have g7 : s7.settings.settingFile_ = true ∧ s7.modifiedEmits = a.modifiedEmits := by
    rw [hs7]
    obtain ⟨-, -, -, -, -, h6, -, -, -, -, h11⟩ := faceSetRange_spec s6 1 s6.doc.faceCount
    exact ⟨h6.trans g6.1, h11.trans g6.2⟩
  have g8 : s8.settings.settingFile_ = true ∧ s8.modifiedEmits = a.modifiedEmits := by
    rw [hs8]
    obtain ⟨-, -, -, -, -, h6, -, -, h9, h10⟩ := startFrameSetRange_spec s7 1 s7.doc.frameCount
    exact ⟨h6.trans g7.1, (h10 g7.1).trans g7.2⟩
  obtain ⟨-, -, -, -, f5, -, -, -, f9⟩ :=
    flagsFold_spec (fun tf => decide (s8.doc.flags &&& tf.flag ≠ 0)) TEXTURE_FLAGS s8
  exact (f9 g8.1).trans g8.2

set_option maxRecDepth 100000 in
/-- Claim C3 counterexample: load `docA` (3 frames, start frame 3), then load
`docB` (10 frames, start frame 7).  Because `set_vtf` writes the spin-box
values before rebinding their ranges, `docA`'s still-active range [1, 3]
clamps the new frame value to 3, so after the second (successful) load the
selected frame is 3 while the loaded document's start frame is 7 — the
selection triple is not `(startFrame, 1, 0)`. -/
theorem C3_counterexample :
    (broadcast_load (broadcast_load initialApp docA) docB).settings.frame_.value = 3
    ∧ docB.startFrame = 7
    ∧ (broadcast_load (broadcast_load initialApp docA) docB).doc.startFrame = 7
    ∧ (broadcast_load (broadcast_load initialApp docA) docB).settings.frame_.value
        ≠ (broadcast_load (broadcast_load initialApp docA) docB).doc.startFrame
    ∧ (broadcast_load (broadcast_load initialApp docA) docB).settings.face_.value = 1
    ∧ (broadcast_load (broadcast_load initialApp docA) docB).settings.mip_.value = 0 := by
  decide

/-- Claim C3, amended: after a successful load of a document whose start
frame lies within the spin-box ranges still bound from before the load (as on
a first load with its [0, 99] defaults, or whenever the previous document's
frame range accommodates it) and within [1, frameCount], with at least one
face and a non-negative mip count, the selection is
(frame, face, mip) = (startFrame, 1, 0), the view transform is reset to
zoom 1 and pan (0, 0), and the document's stored start frame is
preserved. -/
theorem C3_amended (a : App) (f : CVTFFile)
    (h1 : 1 ≤ f.startFrame) (h2 : f.startFrame ≤ f.frameCount)
    (h3 : a.settings.frame_.lo ≤ f.startFrame)
    (h4 : f.startFrame ≤ a.settings.frame_.hi)
    (h5 : a.settings.startFrame_.lo ≤ f.startFrame)
    (h6 : f.startFrame ≤ a.settings.startFrame_.hi)
    (h7 : a.settings.mip_.lo ≤ 0) (h8 : 0 ≤ f.mipmapCount)
    (h9 : a.settings.face_.lo ≤ 1) (h10 : 1 ≤ f.faceCount) :
    (broadcast_load a f).settings.frame_.value = f.startFrame
    ∧ (broadcast_load a f).settings.face_.value = 1
    ∧ (broadcast_load a f).settings.mip_.value = 0
    ∧ (broadcast_load a f).view.zoom_ = 1
    ∧ (broadcast_load a f).view.pos_ = (0, 0)
    ∧ (broadcast_load a f).doc.startFrame = f.startFrame := by
  have q1 : qBound a.settings.startFrame_.lo f.startFrame a.settings.startFrame_.hi
      = f.startFrame := by
    unfold qBound; omega
  have q2 : qBound a.settings.frame_.lo f.startFrame a.settings.frame_.hi
      = f.startFrame := by
    unfold qBound; omega
  have q3 : qBound 0 (qBound a.settings.mip_.lo 0 a.settings.mip_.hi) f.mipmapCount
      = 0 := by
    unfold qBound; omega
  have q4 : qBound 1 f.startFrame f.frameCount = f.startFrame := by
    unfold qBound; omega
  have q5 : qBound 1 (qBound a.settings.face_.lo 0 a.settings.face_.hi) f.faceCount
      = 1 := by
    unfold qBound; omega
  unfold broadcast_load settings_set_vtf
  dsimp only
  set aG : App :=
    { doc := f, view := imageview_set_vtf a.view f,
      settings :=
        { frame_ := a.settings.frame_, mip_ := a.settings.mip_,
          face_ := a.settings.face_, startFrame_ := a.settings.startFrame_,
          flagChecks_ := a.settings.flagChecks_, settingFile_ := true,
          hasFile := true },
      modifiedEmits := a.modifiedEmits } with haG
  set s1 := startFrameSetValue aG f.startFrame with hs1
  obtain ⟨e1, e2, e3, e4, -, -, -, e8, e9, -⟩ := startFrameSetValue_spec aG f.startFrame
  rw [← hs1] at e1 e2 e3 e4 e8 e9
  have c1sf : s1.settings.startFrame_
      = ⟨f.startFrame, a.settings.startFrame_.lo, a.settings.startFrame_.hi⟩ := by
    rw [e1]
    show (⟨qBound a.settings.startFrame_.lo f.startFrame a.settings.startFrame_.hi,
      a.settings.startFrame_.lo, a.settings.startFrame_.hi⟩ : SpinBox) = _
    rw [q1]
  have c1fr : s1.settings.frame_ = a.settings.frame_ := e2
  have c1mip : s1.settings.mip_ = a.settings.mip_ := e3
  have c1face : s1.settings.face_ = a.settings.face_ := e4
  have c1view : s1.view = imageview_set_vtf a.view f := e8
  have c1doc : s1.doc = f := by
    refine (e9 ?_).trans rfl
    show qBound a.settings.startFrame_.lo f.startFrame a.settings.startFrame_.hi
      = f.startFrame
    exact q1
  set s2 := mipSetValue s1 0 with hs2
  obtain ⟨e1, e2, e3, e4, -, -, -, e8, e9, e10, -⟩ := mipSetValue_spec s1 0
  rw [← hs2] at e1 e2 e3 e4 e8 e9 e10
  have c2mip : s2.settings.mip_
      = ⟨qBound a.settings.mip_.lo 0 a.settings.mip_.hi,
         a.settings.mip_.lo, a.settings.mip_.hi⟩ := by
    rw [e1, c1mip]
  have c2fr : s2.settings.frame_ = a.settings.frame_ := e2.trans c1fr
  have c2face : s2.settings.face_ = a.settings.face_ := e3.trans c1face
  have c2sf : s2.settings.startFrame_
      = ⟨f.startFrame, a.settings.startFrame_.lo, a.settings.startFrame_.hi⟩ :=
    e4.trans c1sf
  have c2doc : s2.doc = f := e8.trans c1doc
  have c2zoom : s2.view.zoom_ = (imageview_set_vtf a.view f).zoom_ := by
    rw [e9, c1view]
  have c2pos : s2.view.pos_ = (imageview_set_vtf a.view f).pos_ := by
    rw [e10, c1view]
  set s3 := frameSetValue s2 s2.doc.startFrame with hs3
  obtain ⟨e1, e2, e3, e4, -, -, -, e8, e9, e10, -⟩ :=
    frameSetValue_spec s2 s2.doc.startFrame
  rw [← hs3] at e1 e2 e3 e4 e8 e9 e10
  have c3fr : s3.settings.frame_
      = ⟨f.startFrame, a.settings.frame_.lo, a.settings.frame_.hi⟩ := by
    rw [e1, c2fr, c2doc, q2]
  have c3mip : s3.settings.mip_
      = ⟨qBound a.settings.mip_.lo 0 a.settings.mip_.hi,
         a.settings.mip_.lo, a.settings.mip_.hi⟩ := e2.trans c2mip
  have c3face : s3.settings.face_ = a.settings.face_ := e3.trans c2face
  have c3sf : s3.settings.startFrame_
      = ⟨f.startFrame, a.settings.startFrame_.lo, a.settings.startFrame_.hi⟩ :=
    e4.trans c2sf
  have c3doc : s3.doc = f := e8.trans c2doc
  have c3zoom : s3.view.zoom_ = (imageview_set_vtf a.view f).zoom_ := e9.trans c2zoom
  have c3pos : s3.view.pos_ = (imageview_set_vtf a.view f).pos_ := e10.trans c2pos
  set s4 := faceSetValue s3 0 with hs4
  obtain ⟨e1, e2, e3, e4, -, -, -, e8, e9, e10, -⟩ := faceSetValue_spec s3 0
  rw [← hs4] at e1 e2 e3 e4 e8 e9 e10
  have c4face : s4.settings.face_
      = ⟨qBound a.settings.face_.lo 0 a.settings.face_.hi,
         a.settings.face_.lo, a.settings.face_.hi⟩ := by
    rw [e1, c3face]
  have c4fr : s4.settings.frame_
      = ⟨f.startFrame, a.settings.frame_.lo, a.settings.frame_.hi⟩ :=
    e2.trans c3fr
  have c4mip : s4.settings.mip_
      = ⟨qBound a.settings.mip_.lo 0 a.settings.mip_.hi,
         a.settings.mip_.lo, a.settings.mip_.hi⟩ := e3.trans c3mip
  have c4sf : s4.settings.startFrame_
      = ⟨f.startFrame, a.settings.startFrame_.lo, a.settings.startFrame_.hi⟩ :=
    e4.trans c3sf
  have c4doc : s4.doc = f := e8.trans c3doc
  have c4zoom : s4.view.zoom_ = (imageview_set_vtf a.view f).zoom_ := e9.trans c3zoom
  have c4pos : s4.view.pos_ = (imageview_set_vtf a.view f).pos_ := e10.trans c3pos
  set s5 := mipSetRange s4 0 s4.doc.mipmapCount with hs5
  obtain ⟨e1, e2, e3, e4, -, -, -, e8, e9, e10, -⟩ :=
    mipSetRange_spec s4 0 s4.doc.mipmapCount
  rw [← hs5] at e1 e2 e3 e4 e8 e9 e10
  have c5mip : s5.settings.mip_ = ⟨0, 0, f.mipmapCount⟩ := by
    rw [e1, c4mip, c4doc]
    show (⟨qBound 0 (qBound a.settings.mip_.lo 0 a.settings.mip_.hi) f.mipmapCount,
      0, f.mipmapCount⟩ : SpinBox) = _
    rw [q3]
  have c5fr : s5.settings.frame_
      = ⟨f.startFrame, a.settings.frame_.lo, a.settings.frame_.hi⟩ :=
    e2.trans c4fr
  have c5face : s5.settings.face_
      = ⟨qBound a.settings.face_.lo 0 a.settings.face_.hi,
         a.settings.face_.lo, a.settings.face_.hi⟩ := e3.trans c4face
  have c5sf : s5.settings.startFrame_
      = ⟨f.startFrame, a.settings.startFrame_.lo, a.settings.startFrame_.hi⟩ :=
    e4.trans c4sf
  have c5doc : s5.doc = f := e8.trans c4doc
  have c5zoom : s5.view.zoom_ = (imageview_set_vtf a.view f).zoom_ := e9.trans c4zoom
  have c5pos : s5.view.pos_ = (imageview_set_vtf a.view f).pos_ := e10.trans c4pos
  set s6 := frameSetRange s5 1 s5.doc.frameCount with hs6
  obtain ⟨e1, e2, e3, e4, -, -, -, e8, e9, e10, -⟩ :=
    frameSetRange_spec s5 1 s5.doc.frameCount
  rw [← hs6] at e1 e2 e3 e4 e8 e9 e10
  have c6fr : s6.settings.frame_ = ⟨f.startFrame, 1, f.frameCount⟩ := by
    rw [e1, c5fr, c5doc]
    show (⟨qBound 1 f.startFrame f.frameCount, 1, f.frameCount⟩ : SpinBox) = _
    rw [q4]
  have c6mip : s6.settings.mip_ = ⟨0, 0, f.mipmapCount⟩ := e2.trans c5mip
  have c6face : s6.settings.face_
      = ⟨qBound a.settings.face_.lo 0 a.settings.face_.hi,
         a.settings.face_.lo, a.settings.face_.hi⟩ := e3.trans c5face
  have c6sf : s6.settings.startFrame_
      = ⟨f.startFrame, a.settings.startFrame_.lo, a.settings.startFrame_.hi⟩ :=
    e4.trans c5sf
  have c6doc : s6.doc = f := e8.trans c5doc
  have c6zoom : s6.view.zoom_ = (imageview_set_vtf a.view f).zoom_ := e9.trans c5zoom
  have c6pos : s6.view.pos_ = (imageview_set_vtf a.view f).pos_ := e10.trans c5pos
  set s7 := faceSetRange s6 1 s6.doc.faceCount with hs7
  obtain ⟨e1, e2, e3, e4, -, -, -, e8, e9, e10, -⟩ :=
    faceSetRange_spec s6 1 s6.doc.faceCount
  rw [← hs7] at e1 e2 e3 e4 e8 e9 e10
  have c7face : s7.settings.face_ = ⟨1, 1, f.faceCount⟩ := by
    rw [e1, c6face, c6doc]
    show (⟨qBound 1 (qBound a.settings.face_.lo 0 a.settings.face_.hi) f.faceCount,
      1, f.faceCount⟩ : SpinBox) = _
    rw [q5]
  have c7fr : s7.settings.frame_ = ⟨f.startFrame, 1, f.frameCount⟩ := e2.trans c6fr
  have c7mip : s7.settings.mip_ = ⟨0, 0, f.mipmapCount⟩ := e3.trans c6mip
  have c7sf : s7.settings.startFrame_
      = ⟨f.startFrame, a.settings.startFrame_.lo, a.settings.startFrame_.hi⟩ :=
    e4.trans c6sf
  have c7doc : s7.doc = f := e8.trans c6doc
  have c7zoom : s7.view.zoom_ = (imageview_set_vtf a.view f).zoom_ := e9.trans c6zoom
  have c7pos : s7.view.pos_ = (imageview_set_vtf a.view f).pos_ := e10.trans c6pos
  set s8 := startFrameSetRange s7 1 s7.doc.frameCount with hs8
  obtain ⟨e1, e2, e3, e4, -, -, -, e8, e9, -⟩ :=
    startFrameSetRange_spec s7 1 s7.doc.frameCount
  rw [← hs8] at e1 e2 e3 e4 e8 e9
  have c8fr : s8.settings.frame_ = ⟨f.startFrame, 1, f.frameCount⟩ := e2.trans c7fr
  have c8mip : s8.settings.mip_ = ⟨0, 0, f.mipmapCount⟩ := e3.trans c7mip
  have c8face : s8.settings.face_ = ⟨1, 1, f.faceCount⟩ := e4.trans c7face
  have c8doc : s8.doc = f := by
    refine (e9 ?_).trans c7doc
    rw [c7sf, c7doc]
    show qBound 1 f.startFrame f.frameCount = f.startFrame
    exact q4
  have c8zoom : s8.view.zoom_ = (imageview_set_vtf a.view f).zoom_ := by
    rw [e8]; exact c7zoom
  have c8pos : s8.view.pos_ = (imageview_set_vtf a.view f).pos_ := by
    rw [e8]; exact c7pos
  obtain ⟨f1, f2, f3, f4, -, -, f7, f8, -⟩ :=
    flagsFold_spec (fun tf => decide (s8.doc.flags &&& tf.flag ≠ 0)) TEXTURE_FLAGS s8
  refine ⟨?_, ?_, ?_, ?_, ?_, ?_⟩
  · rw [f1, c8fr]
  · rw [f3, c8face]
  · rw [f2, c8mip]
  · rw [show (List.foldl
        (fun acc tf => setFlagCheck acc tf.flag (decide (s8.doc.flags &&& tf.flag ≠ 0)))
        s8 TEXTURE_FLAGS).view = s8.view from f7]
    rw [c8zoom]
    rfl
  · rw [show (List.foldl
        (fun acc tf => setFlagCheck acc tf.flag (decide (s8.doc.flags &&& tf.flag ≠ 0)))
        s8 TEXTURE_FLAGS).view = s8.view from f7]
    rw [c8pos]
    rfl
  · rw [f8, c8doc]

/-- Witness for `C3_amended`: a first load of `docW` (start frame 2 within
the fresh [0, 99] spin ranges) into the freshly constructed application. -/
theorem C3_amended_witness :
    (broadcast_load initialApp docW).settings.frame_.value = docW.startFrame
    ∧ (broadcast_load initialApp docW).settings.face_.value = 1
    ∧ (broadcast_load initialApp docW).settings.mip_.value = 0
    ∧ (broadcast_load initialApp docW).view.zoom_ = 1
    ∧ (broadcast_load initialApp docW).view.pos_ = (0, 0)
    ∧ (broadcast_load initialApp docW).doc.startFrame = docW.startFrame :=
  C3_amended initialApp docW (by decide) (by decide) (by decide) (by decide)
    (by decide) (by decide) (by decide) (by decide) (by decide) (by decide)

/-- Claim C10: every `vtfFileChanged` subscriber — the InfoWidget refresh,
the ResourceWidget repopulate, the image view `set_vtf` and the settings
panel `set_vtf` — dereferences the received VTF pointer with no null check,
so each handler is defined exactly when the payload is non-null; yet
`unload_file` on a loaded document publishes a null payload to all of
them. -/
theorem C10_null_payload_subscribers :
    info_update_info none = none
    ∧ (∀ rn : Nat → String, resource_set_vtf rn none = none)
    ∧ (∀ st : ImageViewState, imageview_set_vtf_handler none st = none)
    ∧ (∀ a : App, settings_set_vtf_handler none a = none)
    ∧ (∀ f : CVTFFile, (info_update_info (some f)).isSome = true)
    ∧ (∀ (rn : Nat → String) (f : CVTFFile),
        (resource_set_vtf rn (some f)).isSome = true)
    ∧ (∀ (st : ImageViewState) (f : CVTFFile),
        (imageview_set_vtf_handler (some f) st).isSome = true)
    ∧ (∀ (a : App) (f : CVTFFile),
        (settings_set_vtf_handler (some f) a).isSome = true)
    ∧ (∀ (st : ViewerState) (f : CVTFFile), st.file_ = some f →
        (viewer_unload_file st).events = st.events ++ [UIEvent.vtfChanged none]) := by
  refine ⟨rfl, fun _ => rfl, fun _ => rfl, fun _ => rfl, fun _ => rfl,
    fun _ _ => rfl, fun _ _ => rfl, fun _ _ => rfl, fun st f h => ?_⟩
  simp [viewer_unload_file, h]

/-- Witness for `C10_null_payload_subscribers`: unloading the concrete loaded
state publishes `vtfFileChanged(null)`. -/
theorem C10_witness :
    (viewer_unload_file loadedDirtyState).events
      = loadedDirtyState.events ++ [UIEvent.vtfChanged none] :=
  C10_null_payload_subscribers.2.2.2.2.2.2.2.2 loadedDirtyState sampleVTF rfl
